import Mathlib

/-
Verification development for the exploratory-data-analysis pipeline
(src/analise_exploratoria.py, src/main.py, src/convert_csv.py).

The Python pipeline operates on an in-memory pandas DataFrame.  We embed the
table as a list of named columns, each with a numeric flag (pandas dtype
selection) and a list of cells where `none` models a missing value (NaN).
Rational numbers stand for the numeric cell values.
-/

namespace EDA

/-- Levels of the Python `logging` module that the pipeline uses. -/
inductive LogLevel where
  | debug
  | info
  | warning
  | error
  | critical
deriving DecidableEq, Repr

/-- A column of the in-memory table: its name, whether pandas classifies it as
numeric (`select_dtypes(include=[np.number])`), and its cells; `none` models a
missing value. -/
structure Col where
  name : String
  numeric : Bool
  values : List (Option ℚ)
deriving DecidableEq, Repr

/-- The in-memory table (pandas DataFrame): an ordered list of columns. -/
abbrev DataFrame := List Col

/-- Names of the numeric columns, in table order
(`df.select_dtypes(include=[np.number]).columns.tolist()`). -/
def numericColNames (df : DataFrame) : List String :=
  (df.filter (fun c => c.numeric)).map (fun c => c.name)

/-- The two designated target columns that the pipeline excludes from the
predictor set (`calcular_vif`, `scatterplots_*`). -/
def alvos : List String := ["Carga_Aquecimento", "Carga_Resfriamento"]

/-- Predictor columns: numeric columns whose name is not a target
(`[c for c in col_numericas if c not in ["Carga_Aquecimento", "Carga_Resfriamento"]]`). -/
def preditoras (df : DataFrame) : List String :=
  (numericColNames df).filter (fun c => !alvos.contains c)

/-- Number of missing cells of one column (`series.isnull().sum()`). -/
def countNone (vs : List (Option ℚ)) : Nat :=
  (vs.filter (fun v => v.isNone)).length

/-- verificar_nulos (analise_exploratoria.py lines 150-169): `df.isnull().sum()`,
one (column name, missing-cell count) entry per column, in table order. -/
def verificar_nulos (df : DataFrame) : List (String × Nat) :=
  df.map (fun c => (c.name, countNone c.values))

/-- Replace the cells of a value list at the given row indices by missing
values, one index at a time (models injecting missing cells into a column). -/
def setMissing : List (Option ℚ) → List Nat → List (Option ℚ)
  | vs, [] => vs
  | vs, i :: rest => setMissing (vs.set i none) rest

/-- Inject missing values into column `k` of the table at the given row
indices, leaving every other column unchanged. -/
def injectMissing : DataFrame → Nat → List Nat → DataFrame
  | [], _, _ => []
  | c :: cs, 0, idxs => { c with values := setMissing c.values idxs } :: cs
  | c :: cs, k + 1, idxs => c :: injectMissing cs k idxs

lemma countNone_set_none (vs : List (Option ℚ)) (i : Nat)
    (h : (vs.getD i none).isSome) :
    countNone (vs.set i none) = countNone vs + 1 := by
  induction vs generalizing i with
  | nil => simp [List.getD] at h
  | cons v vs ih =>
    cases i with
    | zero =>
      cases v with
      | none => simp [List.getD] at h
      | some a => simp [countNone, List.set]
    | succ i =>
      have := ih i (by simpa [List.getD] using h)
      cases v with
      | none => simpa [countNone, List.set] using this
      | some a => simpa [countNone, List.set] using this

lemma getD_set_ne (vs : List (Option ℚ)) (i j : Nat) (hij : i ≠ j) :
    (vs.set i none).getD j none = vs.getD j none := by
  induction vs generalizing i j with
  | nil => simp [List.set]
  | cons v vs ih =>
    cases i with
    | zero =>
      cases j with
      | zero => exact absurd rfl hij
      | succ j => simp [List.set, List.getD]
    | succ i =>
      cases j with
      | zero => simp [List.set, List.getD]
      | succ j => simpa [List.set, List.getD] using ih i j (by omega)

lemma countNone_setMissing (vs : List (Option ℚ)) (idxs : List Nat)
    (hnd : idxs.Nodup) (hpres : ∀ i ∈ idxs, (vs.getD i none).isSome) :
    countNone (setMissing vs idxs) = countNone vs + idxs.length := by
  induction idxs generalizing vs with
  | nil => simp [setMissing]
  | cons i rest ih =>
    have hndr : rest.Nodup := (List.nodup_cons.mp hnd).2
    have hi : i ∉ rest := (List.nodup_cons.mp hnd).1
    have hstep : countNone (vs.set i none) = countNone vs + 1 :=
      countNone_set_none vs i (hpres i (by simp))
    have hrest : ∀ j ∈ rest, ((vs.set i none).getD j none).isSome := by
      intro j hj
      rw [getD_set_ne vs i j (by rintro rfl; exact hi hj)]
      exact hpres j (by simp [hj])
    have := ih (vs.set i none) hndr hrest
    simp only [setMissing, this, hstep, List.length_cons]
    omega

lemma injectMissing_getD_ne (df : DataFrame) (k : Nat) (idxs : List Nat)
    (j : Nat) (hjk : j ≠ k) :
    (injectMissing df k idxs).getD j ⟨"", false, []⟩ = df.getD j ⟨"", false, []⟩ := by
  induction df generalizing k j with
  | nil => simp [injectMissing]
  | cons c cs ih =>
    cases k with
    | zero =>
      cases j with
      | zero => exact absurd rfl hjk
      | succ j => simp [injectMissing, List.getD]
    | succ k =>
      cases j with
      | zero => simp [injectMissing, List.getD]
      | succ j => simpa [injectMissing, List.getD] using ih k j (by omega)

lemma injectMissing_getD_eq (df : DataFrame) (k : Nat) (idxs : List Nat)
    (hk : k < df.length) :
    (injectMissing df k idxs).getD k ⟨"", false, []⟩ =
      { df.getD k ⟨"", false, []⟩ with
        values := setMissing (df.getD k ⟨"", false, []⟩).values idxs } := by
  induction df generalizing k with
  | nil => simp at hk
  | cons c cs ih =>
    cases k with
    | zero => simp [injectMissing, List.getD]
    | succ k => simpa [injectMissing, List.getD] using ih k (by simpa using hk)

lemma verificar_nulos_getD (df : DataFrame) (j : Nat) (hj : j < df.length) :
    (verificar_nulos df).getD j ("", 0) =
      ((df.getD j ⟨"", false, []⟩).name, countNone (df.getD j ⟨"", false, []⟩).values) := by
  have hj2 : j < (verificar_nulos df).length := by
    simpa [verificar_nulos] using hj
  have h1 : (verificar_nulos df).getD j ("", 0) = (verificar_nulos df)[j] :=
    List.getD_eq_getElem _ _ _
  have h2 : df.getD j ⟨"", false, []⟩ = df[j] := List.getD_eq_getElem _ _ _
  rw [h1, h2]
  simp [verificar_nulos]

lemma length_injectMissing (df : DataFrame) (k : Nat) (idxs : List Nat) :
    (injectMissing df k idxs).length = df.length := by
  induction df generalizing k with
  | nil => simp [injectMissing]
  | cons c cs ih =>
    cases k with
    | zero => simp [injectMissing]
    | succ k => simpa [injectMissing] using ih k

/-- C7: verificar_nulos returns one count per column, equal to the number of
missing cells of that column; a column with no missing cells gets 0; and
injecting N missing values at distinct, currently-present cells of column k
raises the k-th count by exactly N while every other column's entry is
unchanged. -/
theorem C7_verificar_nulos (df : DataFrame) :
    ((verificar_nulos df).length = df.length ∧
      ∀ j, j < df.length →
        (verificar_nulos df).getD j ("", 0) =
          ((df.getD j ⟨"", false, []⟩).name,
            countNone (df.getD j ⟨"", false, []⟩).values)) ∧
    (∀ j, j < df.length →
      (∀ v ∈ (df.getD j ⟨"", false, []⟩).values, v.isSome) →
        ((verificar_nulos df).getD j ("", 0)).2 = 0) ∧
    (∀ k idxs, k < df.length → idxs.Nodup →
      (∀ i ∈ idxs, ((df.getD k ⟨"", false, []⟩).values.getD i none).isSome) →
      (((verificar_nulos (injectMissing df k idxs)).getD k ("", 0)).2 =
          ((verificar_nulos df).getD k ("", 0)).2 + idxs.length ∧
        ∀ j, j ≠ k →
          (verificar_nulos (injectMissing df k idxs)).getD j ("", 0) =
            (verificar_nulos df).getD j ("", 0))) := by
  refine ⟨⟨by simp [verificar_nulos], fun j hj => verificar_nulos_getD df j hj⟩, ?_, ?_⟩
  · intro j hj hall
    rw [verificar_nulos_getD df j hj]
    have : ∀ v ∈ (df.getD j ⟨"", false, []⟩).values, ¬ v.isNone := by
      intro v hv
      simp [Option.isNone_iff_eq_none]
      have := hall v hv
      intro hc
      rw [hc] at this
      simp at this
    simp only [countNone]
    rw [List.filter_eq_nil_iff.mpr (by intro v hv; simpa using this v hv)]
    simp
  · intro k idxs hk hnd hpres
    constructor
    · rw [verificar_nulos_getD df k hk,
        verificar_nulos_getD (injectMissing df k idxs) k
          (by rw [length_injectMissing]; exact hk),
        injectMissing_getD_eq df k idxs hk]
      simpa using countNone_setMissing _ idxs hnd hpres
    · intro j hjk
      by_cases hj : j < df.length
      · rw [verificar_nulos_getD df j hj,
          verificar_nulos_getD (injectMissing df k idxs) j
            (by rw [length_injectMissing]; exact hj),
          injectMissing_getD_ne df k idxs j hjk]
      · have h1 : (verificar_nulos df).getD j ("", 0) = ("", 0) :=
          List.getD_eq_default _ _ (by simpa [verificar_nulos] using Nat.le_of_not_lt hj)
        have h2 : (verificar_nulos (injectMissing df k idxs)).getD j ("", 0) = ("", 0) :=
          List.getD_eq_default _ _ (by
            simp only [verificar_nulos, List.length_map, length_injectMissing]
            exact Nat.le_of_not_lt hj)
        rw [h1, h2]

/-- Concrete table used by witnesses: two numeric columns and the two target
columns, with one missing cell in the second column. -/
def dfSample : DataFrame :=
  [⟨"Compacidade_Relativa", true, [some 1, some 2, some 3]⟩,
   ⟨"Area_Superficial", true, [some 4, none, some 6]⟩,
   ⟨"Carga_Aquecimento", true, [some 7, some 8, some 9]⟩,
   ⟨"Carga_Resfriamento", true, [some 10, some 11, some 12]⟩]

/-- Witness for C7 at a concrete table: column 0 has no missing cells and gets
count 0, and injecting one missing value at row 1 of column 0 raises its count
to 1 while leaving column 1's entry unchanged. -/
theorem C7_verificar_nulos_witness :
    ((verificar_nulos dfSample).getD 0 ("", 0)).2 = 0 ∧
    (((verificar_nulos (injectMissing dfSample 0 [1])).getD 0 ("", 0)).2 =
        ((verificar_nulos dfSample).getD 0 ("", 0)).2 + 1 ∧
      (verificar_nulos (injectMissing dfSample 0 [1])).getD 1 ("", 0) =
        (verificar_nulos dfSample).getD 1 ("", 0)) :=
  ⟨(C7_verificar_nulos dfSample).2.1 0 (by decide) (by decide),
   ((C7_verificar_nulos dfSample).2.2 0 [1] (by decide) (by decide) (by decide)).1,
   ((C7_verificar_nulos dfSample).2.2 0 [1] (by decide) (by decide) (by decide)).2
     1 (by decide)⟩

/-- The ten fixed Portuguese column names assigned by renomear_colunas_pt_br,
in positional order. -/
def nomesPt : List String :=
  ["Compacidade_Relativa", "Area_Superficial", "Area_Parede", "Area_Telhado",
   "Altura_Total", "Orientacao", "Area_Vidro", "Distribuicao_Area_Vidro",
   "Carga_Aquecimento", "Carga_Resfriamento"]

/-- The dict literal `map_colunas` of renomear_colunas_pt_br (lines 73-84),
as its ordered entry list: entry k pairs `df.columns[k]` with the k-th fixed
name.  Python dict semantics (a later duplicate key overwrites an earlier one)
are recovered by `dictFind` below. -/
def map_colunas (cols : List String) : List (String × String) :=
  (List.range 10).map (fun k => (cols.getD k "", nomesPt.getD k ""))

/-- Lookup in a Python dict given as its ordered entry list: the last binding
of a key wins, so we look the key up in the reversed list. -/
def dictFind (m : List (String × String)) (k : String) : Option String :=
  m.reverse.lookup k

/-- renomear_colunas_pt_br (lines 66-90) on the list of column names:
building the dict literal indexes `df.columns[0]` … `df.columns[9]`, so a
table with fewer than 10 columns raises IndexError before any renaming;
otherwise `df.rename(columns=map_colunas)` maps every column name through the
dict, keeping names that are not keys. -/
def renomear_colunas_pt_br (cols : List String) : Except String (List String) :=
  if cols.length < 10 then
    Except.error "IndexError: index out of bounds"
  else
    Except.ok (cols.map (fun c => (dictFind (map_colunas cols) c).getD c))

lemma dictFind_mapTable (key val : Nat → String) :
    ∀ (n k : Nat), k < n →
      (∀ i j, i < n → j < n → key i = key j → i = j) →
      dictFind ((List.range n).map (fun j => (key j, val j))) (key k) =
        some (val k) := by
  intro n
  induction n with
  | zero => intro k hk; omega
  | succ n ih =>
    intro k hk hinj
    have hrw : ((List.range (n + 1)).map (fun j => (key j, val j))).reverse =
        (key n, val n) :: ((List.range n).map (fun j => (key j, val j))).reverse := by
      rw [List.range_succ]
      simp
    by_cases hkn : k = n
    · subst hkn
      simp [dictFind, hrw, List.lookup_cons]
    · have hklt : k < n := by omega
      have hne : key k ≠ key n := by
        intro h
        exact hkn (hinj k n (by omega) (by omega) h)
      have := ih k hklt (fun i j hi hj h => hinj i j (by omega) (by omega) h)
      simp only [dictFind, hrw, List.lookup_cons]
      rw [show (key k == key n) = false by simpa using hne]
      simpa [dictFind] using this

/-- C9 counterexample input: ten columns where the first two share the name
"A", as pandas allows duplicate column labels. -/
def colsDup : List String := ["A", "A", "C", "D", "E", "F", "G", "H", "I", "J"]

/-- C9 counterexample: on a 10-column table whose first two columns are both
named "A", the dict literal keeps only the later binding, so renaming succeeds
but the first column becomes "Area_Superficial" rather than
"Compacidade_Relativa" — the first ten columns are not the fixed Portuguese
names in original order. -/
theorem C9_renomear_counterexample :
    (renomear_colunas_pt_br colsDup).toOption.isSome = true ∧
    (renomear_colunas_pt_br colsDup).toOption.map (fun r => r.take 10) ≠ some nomesPt ∧
    (renomear_colunas_pt_br colsDup).toOption.map (fun r => r.getD 0 "") =
      some "Area_Superficial" := by
  refine ⟨by decide, by decide, by decide⟩

/-- C9 (amended): positional accesses are in bounds exactly when the table has
at least 10 columns — fewer raise IndexError before renaming — and, provided
the first ten column names are pairwise distinct, the returned table has the
same number of columns with the first ten renamed to the fixed Portuguese
names in original order. -/
theorem C9_renomear_amended (cols : List String) :
    (cols.length < 10 →
      renomear_colunas_pt_br cols = Except.error "IndexError: index out of bounds") ∧
    (10 ≤ cols.length → (cols.take 10).Nodup →
      ∃ r, renomear_colunas_pt_br cols = Except.ok r ∧
        r.length = cols.length ∧ r.take 10 = nomesPt) := by
  constructor
  · intro h
    simp [renomear_colunas_pt_br, h]
  · intro hlen hnd
    refine ⟨cols.map (fun c => (dictFind (map_colunas cols) c).getD c), ?_, by simp, ?_⟩
    · simp [renomear_colunas_pt_br, Nat.not_lt.mpr hlen]
    · have hinj : ∀ i j, i < 10 → j < 10 →
          cols.getD i "" = cols.getD j "" → i = j := by
        intro i j hi hj h
        have hi' : i < cols.length := by omega
        have hj' : j < cols.length := by omega
        have hti : i < (cols.take 10).length := by simp; omega
        have htj : j < (cols.take 10).length := by simp; omega
        have h1 : (cols.take 10)[i] = (cols.take 10)[j] := by
          rw [List.getElem_take, List.getElem_take]
          rw [List.getD_eq_getElem cols "" hi', List.getD_eq_getElem cols "" hj'] at h
          exact h
        exact hnd.getElem_inj_iff.mp h1
      rw [← List.map_take]
      have hlen10 : (cols.take 10).length = 10 := by simp; omega
      refine List.ext_getElem (by simp [nomesPt]; omega) ?_
      intro i hi1 hi2
      have hi10 : i < 10 := by simp at hi1; omega
      have hci : i < cols.length := by omega
      rw [List.getElem_map]
      have hti2 : i < (cols.take 10).length := by simp; omega
      have hkey : (cols.take 10)[i] = cols.getD i "" := by
        rw [List.getElem_take, List.getD_eq_getElem cols "" hci]
      rw [hkey]
      have := dictFind_mapTable (fun j => cols.getD j "") (fun j => nomesPt.getD j "")
        10 i hi10 hinj
      rw [show map_colunas cols =
        (List.range 10).map (fun j => (cols.getD j "", nomesPt.getD j "")) from rfl]
      rw [this]
      simp only [Option.getD_some]
      rw [List.getD_eq_getElem nomesPt "" (by simpa [nomesPt] using hi10)]

/-- Witness for C9 (amended): a concrete 11-column table with distinct first
ten names is renamed successfully with the fixed names in order, and a
9-column table raises IndexError. -/
theorem C9_renomear_amended_witness :
    (∃ r, renomear_colunas_pt_br ["c0", "c1", "c2", "c3", "c4", "c5", "c6", "c7",
        "c8", "c9", "extra"] = Except.ok r ∧
      r.length = 11 ∧ r.take 10 = nomesPt) ∧
    renomear_colunas_pt_br ["c0", "c1", "c2", "c3", "c4", "c5", "c6", "c7", "c8"] =
      Except.error "IndexError: index out of bounds" :=
  ⟨(C9_renomear_amended _).2 (by decide) (by decide),
   (C9_renomear_amended _).1 (by decide)⟩

/-- Predictor data matrix `x = df[preditoras]` of calcular_vif: the cell lists
of the numeric non-target columns, in table order. -/
def matrizPreditoras (df : DataFrame) : List (List (Option ℚ)) :=
  (df.filter (fun c => c.numeric && !alvos.contains c.name)).map (fun c => c.values)

/-- calcular_vif (lines 302-359).  The regression R² of statsmodels'
`variance_inflation_factor` (a library call) is passed in abstractly as
`rsq x i`, the R² of regressing column i of the predictor matrix on the other
predictor columns; the function computes 1/(1−R²) from it.  The write of
vif_tabela.csv is a side effect tracked separately (see the C5 trace). -/
def calcular_vif (rsq : List (List (Option ℚ)) → Nat → ℚ) (df : DataFrame) :
    Except String (List (String × ℚ)) :=
  let preds := preditoras df
  if preds.length = 0 then
    Except.error "Dataset vazio ou colunas inorretas."
  else
    Except.ok ((List.range preds.length).map
      (fun i => (preds.getD i "", 1 / (1 - rsq (matrizPreditoras df) i))))

/-- C4: calcular_vif fails exactly when the predictor set (numeric columns
minus the two targets) is empty; otherwise it returns one row per predictor,
row i pairing the i-th predictor with its variance-inflation factor
1/(1−R²) of the regression of that predictor on the other predictors. -/
theorem C4_calcular_vif (rsq : List (List (Option ℚ)) → Nat → ℚ) (df : DataFrame) :
    ((∃ msg, calcular_vif rsq df = Except.error msg) ↔ preditoras df = []) ∧
    (∀ r, calcular_vif rsq df = Except.ok r →
      r.length = (preditoras df).length ∧
      ∀ i, i < r.length →
        r.getD i ("", 0) =
          ((preditoras df).getD i "", 1 / (1 - rsq (matrizPreditoras df) i))) := by
  by_cases h : (preditoras df).length = 0
  · constructor
    · simp [calcular_vif, h, List.length_eq_zero.mp h]
    · intro r hr
      simp [calcular_vif, h] at hr
  · constructor
    · constructor
      · rintro ⟨msg, hmsg⟩
        simp [calcular_vif, h] at hmsg
      · intro hempty
        rw [hempty] at h
        simp at h
    · intro r hr
      simp only [calcular_vif, if_neg h] at hr
      injection hr with hr
      subst hr
      refine ⟨by simp, ?_⟩
      intro i hi
      simp only [List.length_map, List.length_range] at hi
      rw [List.getD_eq_getElem _ _ (by simpa using hi)]
      simp

/-- Witness for C4 at a concrete table and the constant-zero R² model: the
predictor set is nonempty, the call succeeds, and row 0 pairs the first
predictor with 1/(1−0). -/
theorem C4_calcular_vif_witness :
    [("Compacidade_Relativa", 1 / (1 - (0:ℚ))), ("Area_Superficial", 1 / (1 - (0:ℚ)))].getD
        0 ("", 0) =
      ((preditoras dfSample).getD 0 "",
        1 / (1 - (fun _ _ => (0:ℚ)) (matrizPreditoras dfSample) 0)) :=
  ((C4_calcular_vif (fun _ _ => 0) dfSample).2
    [("Compacidade_Relativa", 1 / (1 - (0:ℚ))), ("Area_Superficial", 1 / (1 - (0:ℚ)))]
    rfl).2 0 (by decide)

/-- Log lines emitted by main before the guarded pipeline call (log_system's
banner and the pre-conversion info message). -/
def mainLogsPrefix : List (LogLevel × String) :=
  [(LogLevel.info, "======== INÍCIO DA EXECUÇÃO ========"),
   (LogLevel.info, "Convertendo Excel para CSV....")]

/-- main (main.py lines 46-52): the whole pipeline run is wrapped in
`try/except Exception`; on any exception main calls
`logging.error("ERRO CRÍTICO DURANTE A EXECUÇÃO")` and falls through, so the
function itself always returns normally.  The argument is the outcome of the
guarded body (conversion followed by the analysis pipeline); the result is the
log trace and main's own outcome. -/
def main_run (pipeline : Except String Unit) :
    List (LogLevel × String) × Except String Unit :=
  match pipeline with
  | Except.ok _ => (mainLogsPrefix, Except.ok ())
  | Except.error _ =>
      (mainLogsPrefix ++ [(LogLevel.error, "ERRO CRÍTICO DURANTE A EXECUÇÃO")],
        Except.ok ())

/-- C3 counterexample: when the pipeline fails (here: a missing input file),
main does catch the exception and return normally, but the failure is logged
at error level — no log entry at critical level is emitted, contrary to the
claim that main logs the exception as critical. -/
theorem C3_main_counterexample :
    (main_run (Except.error "FileNotFoundError")).2 = Except.ok () ∧
    (LogLevel.error, "ERRO CRÍTICO DURANTE A EXECUÇÃO") ∈
      (main_run (Except.error "FileNotFoundError")).1 ∧
    LogLevel.critical ∉ (main_run (Except.error "FileNotFoundError")).1.map Prod.fst :=
  ⟨rfl, by decide, by decide⟩

/-- C3 (amended): for every exception raised by any stage of the pipeline,
main catches it, logs the fixed message "ERRO CRÍTICO DURANTE A EXECUÇÃO" at
error (not critical) level, and ends the run without re-raising; the process
never aborts with an unhandled exception. -/
theorem C3_main_amended (pipeline : Except String Unit) :
    (main_run pipeline).2 = Except.ok () ∧
    (pipeline.isOk = false →
      (LogLevel.error, "ERRO CRÍTICO DURANTE A EXECUÇÃO") ∈ (main_run pipeline).1 ∧
      LogLevel.critical ∉ (main_run pipeline).1.map Prod.fst) := by
  cases pipeline with
  | ok u => exact ⟨rfl, by simp [Except.isOk, Except.toBool]⟩
  | error e => exact ⟨rfl, fun _ => ⟨by simp [main_run, mainLogsPrefix],
      by simp [main_run, mainLogsPrefix]⟩⟩

/-- Witness for C3 (amended) at a concrete failing pipeline. -/
theorem C3_main_amended_witness :
    (LogLevel.error, "ERRO CRÍTICO DURANTE A EXECUÇÃO") ∈
      (main_run (Except.error "ValueError")).1 ∧
    LogLevel.critical ∉ (main_run (Except.error "ValueError")).1.map Prod.fst :=
  (C3_main_amended (Except.error "ValueError")).2 rfl

/-- Rows on which both cells are present: the pairwise-complete observations
that pandas' Pearson computation uses for one pair of columns. -/
def paired (xs ys : List (Option ℚ)) : List (ℚ × ℚ) :=
  (xs.zip ys).filterMap (fun p =>
    match p with
    | (some a, some b) => some (a, b)
    | _ => none)

/-- Mean of a list of rationals (0 for the empty list, whose sum is 0). -/
def mean (l : List ℚ) : ℚ := l.sum / l.length

/-- Deviations from the mean. -/
def centred (l : List ℚ) : List ℚ := l.map (fun a => a - mean l)

/-- Centred cross sum Σ (xᵢ − x̄)(yᵢ − ȳ) of two equal-length samples. -/
def cross (xs ys : List ℚ) : ℚ :=
  (((centred xs).zip (centred ys)).map (fun p => p.1 * p.2)).sum

/-- Pearson correlation coefficient of two columns over their
pairwise-complete rows: r = Sxy / √(Sxx·Syy), as computed by
`df.corr(method="pearson")` for one entry. -/
noncomputable def pearson (xs ys : List (Option ℚ)) : ℝ :=
  ((cross ((paired xs ys).map Prod.fst) ((paired xs ys).map Prod.snd) : ℚ) : ℝ) /
    Real.sqrt
      (((cross ((paired xs ys).map Prod.fst) ((paired xs ys).map Prod.fst) : ℚ) : ℝ) *
        ((cross ((paired xs ys).map Prod.snd) ((paired xs ys).map Prod.snd) : ℚ) : ℝ))

/-- Sum of squared deviations of the present cells of one column (pairing a
column with itself keeps exactly its present cells); the column has nonzero
variance iff this is nonzero. -/
def sxx (xs : List (Option ℚ)) : ℚ :=
  cross ((paired xs xs).map Prod.fst) ((paired xs xs).map Prod.fst)

/-- Cell lists of the numeric columns, in table order. -/
def numericColValues (df : DataFrame) : List (List (Option ℚ)) :=
  (df.filter (fun c => c.numeric)).map (fun c => c.values)

/-- The correlation matrix computed by gerar_matriz_correlacao (line 245,
`df.corr(method="pearson")`): one row per numeric column, entry (i,j) the
Pearson coefficient of columns i and j. -/
noncomputable def corrMatrix (df : DataFrame) : List (List ℝ) :=
  (numericColValues df).map (fun ci => (numericColValues df).map (fun cj => pearson ci cj))

lemma paired_swap (xs ys : List (Option ℚ)) :
    paired ys xs = (paired xs ys).map Prod.swap := by
  induction xs generalizing ys with
  | nil => cases ys <;> simp [paired]
  | cons x xs ih =>
    cases ys with
    | nil => simp [paired]
    | cons y ys =>
      cases x <;> cases y <;>
        simpa [paired, List.filterMap_cons] using ih ys

lemma sum_zip_mul_comm (as bs : List ℚ) :
    ((as.zip bs).map (fun p => p.1 * p.2)).sum =
      ((bs.zip as).map (fun p => p.1 * p.2)).sum := by
  induction as generalizing bs with
  | nil => cases bs <;> simp
  | cons a as ih =>
    cases bs with
    | nil => simp
    | cons b bs => simp [ih bs, mul_comm]

lemma cross_comm (xs ys : List ℚ) : cross xs ys = cross ys xs := by
  unfold cross
  exact sum_zip_mul_comm _ _

lemma pearson_comm (xs ys : List (Option ℚ)) : pearson xs ys = pearson ys xs := by
  unfold pearson
  rw [paired_swap xs ys]
  simp only [List.map_map]
  have h1 : (Prod.fst ∘ Prod.swap : ℚ × ℚ → ℚ) = Prod.snd := rfl
  have h2 : (Prod.snd ∘ Prod.swap : ℚ × ℚ → ℚ) = Prod.fst := rfl
  rw [h1, h2, cross_comm ((paired xs ys).map Prod.snd) ((paired xs ys).map Prod.fst),
    mul_comm]

lemma zip_self_eq_map (l : List ℚ) : l.zip l = l.map (fun a => (a, a)) := by
  induction l with
  | nil => simp
  | cons a l ih => simp [ih]

lemma sxx_nonneg (xs : List (Option ℚ)) : 0 ≤ sxx xs := by
  unfold sxx cross
  rw [zip_self_eq_map]
  apply List.sum_nonneg
  intro a ha
  simp only [List.map_map, List.mem_map] at ha
  obtain ⟨b, _, hb⟩ := ha
  rw [← hb]
  exact mul_self_nonneg _

lemma paired_self_fst_eq_snd (xs : List (Option ℚ)) :
    (paired xs xs).map Prod.fst = (paired xs xs).map Prod.snd := by
  induction xs with
  | nil => simp [paired]
  | cons x xs ih =>
    cases x <;> simpa [paired, List.filterMap_cons] using ih

lemma pearson_self (xs : List (Option ℚ)) (h : sxx xs ≠ 0) : pearson xs xs = 1 := by
  unfold pearson
  rw [← paired_self_fst_eq_snd xs]
  have hs : (0:ℚ) ≤ sxx xs := sxx_nonneg xs
  have hpos : (0:ℚ) < sxx xs := lt_of_le_of_ne hs (Ne.symm h)
  have hcast : (0:ℝ) < ((sxx xs : ℚ) : ℝ) := by exact_mod_cast hpos
  rw [show cross ((paired xs xs).map Prod.fst) ((paired xs xs).map Prod.fst) = sxx xs
    from rfl]
  rw [Real.sqrt_mul_self (le_of_lt hcast)]
  exact div_self (ne_of_gt hcast)

lemma numericColValues_length (df : DataFrame) :
    (numericColValues df).length = (numericColNames df).length := by
  simp [numericColValues, numericColNames]

/-- Entry (i,j) of the correlation matrix, read with out-of-range default 0. -/
noncomputable def corrEntry (df : DataFrame) (i j : Nat) : ℝ :=
  ((corrMatrix df).getD i []).getD j 0

lemma corrEntry_eq (df : DataFrame) (i j : Nat)
    (hi : i < (numericColValues df).length) (hj : j < (numericColValues df).length) :
    corrEntry df i j =
      pearson ((numericColValues df).getD i []) ((numericColValues df).getD j []) := by
  unfold corrEntry corrMatrix
  have hi' : i < ((numericColValues df).map
      (fun ci => (numericColValues df).map (fun cj => pearson ci cj))).length := by
    simpa using hi
  rw [List.getD_eq_getElem _ _ hi']
  rw [List.getElem_map]
  have hj' : j < ((numericColValues df).map
      (fun cj => pearson ((numericColValues df)[i]) cj)).length := by
    simpa using hj
  rw [List.getD_eq_getElem _ _ hj']
  rw [List.getElem_map]
  rw [List.getD_eq_getElem _ _ hi, List.getD_eq_getElem _ _ hj]

lemma corrEntry_default_left (df : DataFrame) (i j : Nat)
    (hi : (numericColValues df).length ≤ i) : corrEntry df i j = 0 := by
  unfold corrEntry
  have hlen : (corrMatrix df).length = (numericColValues df).length := by
    simp [corrMatrix]
  rw [show (corrMatrix df).getD i [] = [] from
    List.getD_eq_default _ _ (by rw [hlen]; exact hi)]
  simp

lemma corrEntry_default_right (df : DataFrame) (i j : Nat)
    (hj : (numericColValues df).length ≤ j) : corrEntry df i j = 0 := by
  unfold corrEntry
  by_cases hi : i < (corrMatrix df).length
  · have hi2 : i < (numericColValues df).length := by simpa [corrMatrix] using hi
    rw [List.getD_eq_getElem _ _ hi]
    apply List.getD_eq_default
    have : (corrMatrix df)[i] =
        (numericColValues df).map (fun cj =>
          pearson ((numericColValues df)[i]) cj) := by
      simp [corrMatrix]
    rw [this]
    simpa using hj
  · rw [List.getD_eq_default _ _ (Nat.le_of_not_lt hi)]
    simp

/-- C6: the correlation matrix of gerar_matriz_correlacao is square (one row
per numeric column, each row of that same length), symmetric in all positions,
and its diagonal entry is exactly 1 for every column with nonzero variance. -/
theorem C6_corrMatrix (df : DataFrame) :
    (corrMatrix df).length = (numericColNames df).length ∧
    (∀ row ∈ corrMatrix df, row.length = (numericColNames df).length) ∧
    (∀ i j, corrEntry df i j = corrEntry df j i) ∧
    (∀ i, i < (numericColNames df).length →
      sxx ((numericColValues df).getD i []) ≠ 0 → corrEntry df i i = 1) := by
  refine ⟨by simp [corrMatrix, numericColValues_length], ?_, ?_, ?_⟩
  · intro row hrow
    simp only [corrMatrix, List.mem_map] at hrow
    obtain ⟨ci, _, hci⟩ := hrow
    rw [← hci]
    simp [numericColValues_length]
  · intro i j
    by_cases hi : i < (numericColValues df).length
    · by_cases hj : j < (numericColValues df).length
      · rw [corrEntry_eq df i j hi hj, corrEntry_eq df j i hj hi, pearson_comm]
      · rw [corrEntry_default_right df i j (Nat.le_of_not_lt hj),
          corrEntry_default_left df j i (Nat.le_of_not_lt hj)]
    · rw [corrEntry_default_left df i j (Nat.le_of_not_lt hi),
        corrEntry_default_right df j i (Nat.le_of_not_lt hi)]
  · intro i hi hvar
    rw [corrEntry_eq df i i (by rw [numericColValues_length]; exact hi)
      (by rw [numericColValues_length]; exact hi)]
    exact pearson_self _ hvar

/-- Witness for C6 at the concrete sample table: its first numeric column has
nonzero variance and diagonal entry exactly 1. -/
theorem C6_corrMatrix_witness :
    corrEntry dfSample 0 0 = 1 ∧ corrEntry dfSample 0 1 = corrEntry dfSample 1 0 :=
  ⟨(C6_corrMatrix dfSample).2.2.2 0 (by decide)
    (by
      have hcol : (numericColValues dfSample).getD 0 [] = [some 1, some 2, some 3] := by
        simp [numericColValues, dfSample]
      have hp : paired [some 1, some 2, some 3] [some 1, some 2, some 3] =
          [(1, 1), (2, 2), (3, 3)] := by
        simp [paired, List.filterMap_cons]
      rw [hcol]
      simp only [sxx, cross, centred, mean, hp]
      norm_num),
   (C6_corrMatrix dfSample).2.2.1 0 1⟩

/-- Where, if anywhere, the heatmap rendering/saving block of
gerar_matriz_correlacao (lines 251-260) raises: `beforePath` models a failure
in the plotting calls before `caminho = os.path.join(...)` is assigned,
`atSave` a failure in `plt.savefig`/`plt.tight_layout` after `caminho` is
assigned. -/
inductive RenderOutcome where
  | ok
  | beforePath
  | atSave
deriving DecidableEq, Repr

/-- gerar_matriz_correlacao (lines 230-265): computes the correlation matrix,
then tries to render and save the heatmap.  Its `except` block (lines 262-263)
does not re-raise: it only calls
`logging.error(f"Heatmap de correlação salvo em: {caminho}")`, so a failure
while saving is swallowed and the matrix is returned normally; a failure
before `caminho` is assigned makes that very log call raise
UnboundLocalError, which propagates.  Result: the function's outcome, its log
trace, and the image files it wrote. -/
noncomputable def gerar_matriz_correlacao (df : DataFrame) (render : RenderOutcome) :
    Except String (List (List ℝ)) × List (LogLevel × String) × List String :=
  let correlacao := corrMatrix df
  let logCalc := (LogLevel.info, "Calculando matriz de correlação (Pearson)...")
  match render with
  | RenderOutcome.ok =>
      (Except.ok correlacao, [logCalc], ["heatmap_correlacao.png"])
  | RenderOutcome.beforePath =>
      (Except.error "UnboundLocalError: cannot access local variable caminho",
        [logCalc], [])
  | RenderOutcome.atSave =>
      (Except.ok correlacao,
        [logCalc,
         (LogLevel.error, "Heatmap de correlação salvo em: heatmap_correlacao.png")],
        [])

/-- C2, evaluated at the failing input: when saving the heatmap raises, the
`except` block of gerar_matriz_correlacao swallows the exception — the
function still returns the correlation matrix normally (no re-raise), logs
only the mislabelled success-worded message at error level, and writes no
heatmap file.  This contradicts the claim that such a failure propagates to
the caller. -/
theorem C2_gerar_matriz_correlacao_swallows (df : DataFrame) :
    (gerar_matriz_correlacao df RenderOutcome.atSave).1 = Except.ok (corrMatrix df) ∧
    (LogLevel.error, "Heatmap de correlação salvo em: heatmap_correlacao.png") ∈
      (gerar_matriz_correlacao df RenderOutcome.atSave).2.1 ∧
    (gerar_matriz_correlacao df RenderOutcome.atSave).2.2 = [] := by
  refine ⟨rfl, ?_, rfl⟩
  simp [gerar_matriz_correlacao]

/-- A correlation DataFrame as consumed by extrair_maiores_correlacoes: its
column labels and its numeric entries (`corr.iloc[i, j]`). -/
structure CorrDF where
  cols : List String
  entry : Nat → Nat → ℚ

/-- Comparison key of `sorted(pares, key=lambda x: x[1], reverse=True)`:
x precedes y when y's value does not exceed x's. -/
def leVal (x y : (String × String) × ℚ) : Bool := decide (y.2 ≤ x.2)

/-- The pair list built by the double loop of extrair_maiores_correlacoes
(lines 288-290): for each i and each j in range(i+1, n), the pair of column
labels together with the absolute correlation `corr.abs().iloc[i, j]`. -/
def pares (m : CorrDF) : List ((String × String) × ℚ) :=
  (List.range m.cols.length).flatMap (fun i =>
    (List.range' (i + 1) (m.cols.length - (i + 1))).map (fun j =>
      ((m.cols.getD i "", m.cols.getD j ""), |m.entry i j|)))

/-- Line 292, pares_ordenados = sorted(pares, key=lambda x: x[1],
reverse=True): Python's sort is stable, and with reverse=True equal keys keep
their original scan order, which is exactly a stable merge sort under
`leVal`. -/
def pares_ordenados (m : CorrDF) : List ((String × String) × ℚ) :=
  (pares m).mergeSort leVal

/-- extrair_maiores_correlacoes (lines 268-299): the first `limite` entries of
the descending-sorted pair list (`pares_ordenados[:limite]`). -/
def extrair_maiores_correlacoes (m : CorrDF) (limite : Nat) :
    List ((String × String) × ℚ) :=
  (pares_ordenados m).take limite

lemma leVal_trans : ∀ a b c : (String × String) × ℚ,
    leVal a b → leVal b c → leVal a c := by
  intro a b c hab hbc
  simp only [leVal, decide_eq_true_eq] at *
  exact le_trans hbc hab

lemma leVal_total : ∀ a b : (String × String) × ℚ, leVal a b || leVal b a := by
  intro a b
  simp only [leVal, Bool.or_eq_true, decide_eq_true_eq]
  exact le_total b.2 a.2

lemma mem_pares {m : CorrDF} {p : (String × String) × ℚ} :
    p ∈ pares m ↔ ∃ i j, i < j ∧ j < m.cols.length ∧
      p = ((m.cols.getD i "", m.cols.getD j ""), |m.entry i j|) := by
  simp only [pares, List.mem_flatMap, List.mem_map, List.mem_range, List.mem_range'_1]
  constructor
  · rintro ⟨i, hi, j, ⟨hj1, hj2⟩, rfl⟩
    exact ⟨i, j, by omega, by omega, rfl⟩
  · rintro ⟨i, j, hij, hjn, rfl⟩
    exact ⟨i, by omega, j, ⟨by omega, by omega⟩, rfl⟩

lemma length_pares (m : CorrDF) :
    (pares m).length = m.cols.length * (m.cols.length - 1) / 2 := by
  have h1 : (pares m).length =
      ((List.range m.cols.length).map (fun i => m.cols.length - (i + 1))).sum := by
    simp only [pares, List.flatMap, List.length_flatten, List.map_map]
    congr 1
    congr 1
    funext i
    simp [Function.comp]
  have h2 : ((List.range m.cols.length).map (fun i => m.cols.length - (i + 1))).sum =
      ∑ i in Finset.range m.cols.length, (m.cols.length - (i + 1)) := rfl
  have h3 : ∑ i in Finset.range m.cols.length, (m.cols.length - (i + 1)) =
      ∑ i in Finset.range m.cols.length, (m.cols.length - 1 - i) :=
    Finset.sum_congr rfl (fun i _ => by omega)
  have h4 : ∑ i in Finset.range m.cols.length, (m.cols.length - 1 - i) =
      ∑ i in Finset.range m.cols.length, i :=
    Finset.sum_range_reflect (fun j => j) m.cols.length
  rw [h1, h2, h3, h4, Finset.sum_range_id]

lemma sorted_pares_ordenados (m : CorrDF) :
    (pares_ordenados m).Pairwise (fun x y => y.2 ≤ x.2) := by
  have h := List.sorted_mergeSort leVal_trans leVal_total (pares m)
  exact h.imp (fun hab => by simpa [leVal] using hab)

/-- C10: for every square correlation matrix and every limite,
extrair_maiores_correlacoes terminates with exactly
min(limite, n·(n−1)/2) pairs — a limite beyond the number of off-diagonal
pairs returns all pairs — and every returned entry is the absolute value of
an off-diagonal input entry, hence non-negative. -/
theorem C10_extrair_total (m : CorrDF) (limite : Nat) :
    (extrair_maiores_correlacoes m limite).length =
      min limite (m.cols.length * (m.cols.length - 1) / 2) ∧
    (∀ p ∈ extrair_maiores_correlacoes m limite,
      (∃ i j, i < j ∧ j < m.cols.length ∧
        p = ((m.cols.getD i "", m.cols.getD j ""), |m.entry i j|)) ∧ 0 ≤ p.2) := by
  constructor
  · rw [extrair_maiores_correlacoes, List.length_take, pares_ordenados,
      List.length_mergeSort, length_pares]
  · intro p hp
    have hmem : p ∈ pares m := by
      have := List.mem_of_mem_take hp
      rwa [pares_ordenados, List.mem_mergeSort] at this
    have hchar := mem_pares.mp hmem
    refine ⟨hchar, ?_⟩
    obtain ⟨i, j, _, _, rfl⟩ := hchar
    exact abs_nonneg _

/-- C1: for every correlation matrix and positive limite, the result is the
first limite entries of a descending stable sort of the off-diagonal scan:
the sorted list is descending in absolute value, every returned pair comes
from two distinct columns (i < j, never the diagonal) with its absolute
correlation, every returned value is at least every excluded value, and the
sort is stable — pairs with equal values keep their column-scan order. -/
theorem C1_extrair_top_limite (m : CorrDF) (limite : Nat) (hpos : 0 < limite) :
    extrair_maiores_correlacoes m limite = (pares_ordenados m).take limite ∧
    (pares_ordenados m).Pairwise (fun x y => y.2 ≤ x.2) ∧
    (∀ p ∈ extrair_maiores_correlacoes m limite,
      ∃ i j, i < j ∧ j < m.cols.length ∧
        p = ((m.cols.getD i "", m.cols.getD j ""), |m.entry i j|)) ∧
    (∀ p ∈ extrair_maiores_correlacoes m limite,
      ∀ q ∈ (pares_ordenados m).drop limite, q.2 ≤ p.2) ∧
    (∀ x y : (String × String) × ℚ, x.2 = y.2 →
      [x, y].Sublist (pares m) → [x, y].Sublist (pares_ordenados m)) := by
  refine ⟨rfl, sorted_pares_ordenados m, ?_, ?_, ?_⟩
  · intro p hp
    have hmem : p ∈ pares m := by
      have := List.mem_of_mem_take hp
      rwa [pares_ordenados, List.mem_mergeSort] at this
    exact mem_pares.mp hmem
  · intro p hp q hq
    have hs := sorted_pares_ordenados m
    rw [← List.take_append_drop limite (pares_ordenados m), List.pairwise_append] at hs
    exact hs.2.2 p hp q hq
  · intro x y hval hsub
    exact List.pair_sublist_mergeSort leVal_trans leVal_total
      (by simp [leVal, hval.symm.le]) hsub

/-- Concrete 2-column correlation matrix used by the C1/C10 witnesses. -/
def corrSample : CorrDF :=
  ⟨["a", "b"], fun i j => if i = j then 1 else -3⟩

lemma pares_corrSample : pares corrSample = [(("a", "b"), 3)] := by decide

lemma pares_ordenados_corrSample : pares_ordenados corrSample = [(("a", "b"), 3)] := by
  rw [pares_ordenados, pares_corrSample, List.mergeSort_singleton]

/-- Witness for C1 at the concrete matrix with limite = 1. -/
theorem C1_extrair_top_limite_witness :
    extrair_maiores_correlacoes corrSample 1 = (pares_ordenados corrSample).take 1 ∧
    (∃ i j, i < j ∧ j < corrSample.cols.length ∧
      ((("a", "b"), (3:ℚ)) : (String × String) × ℚ) =
        ((corrSample.cols.getD i "", corrSample.cols.getD j ""),
          |corrSample.entry i j|)) :=
  ⟨(C1_extrair_top_limite corrSample 1 (by decide)).1,
   (C1_extrair_top_limite corrSample 1 (by decide)).2.2.1 (("a", "b"), 3)
     (by rw [extrair_maiores_correlacoes, pares_ordenados_corrSample]; decide)⟩

/-- Witness for C10 at the concrete matrix, with limite exceeding the number
of off-diagonal pairs. -/
theorem C10_extrair_total_witness :
    (∃ i j, i < j ∧ j < corrSample.cols.length ∧
      ((("a", "b"), (3:ℚ)) : (String × String) × ℚ) =
        ((corrSample.cols.getD i "", corrSample.cols.getD j ""),
          |corrSample.entry i j|)) ∧
    0 ≤ (((("a", "b"), (3:ℚ)) : (String × String) × ℚ)).2 :=
  (C10_extrair_total corrSample 5).2 (("a", "b"), 3)
    (by rw [extrair_maiores_correlacoes, pares_ordenados_corrSample]; decide)

/-- File names written by gerar_histogramas (lines 172-227): for each numeric
column, a histogram image then a boxplot image. -/
def gerar_histogramas_files (df : DataFrame) : List String :=
  (numericColNames df).flatMap
    (fun c => ["hist_" ++ c ++ ".png", "box_" ++ c ++ ".png"])

/-- File names written by scatterplots_aqueciemneto (lines 362-412): one
scatterplot per predictor column against Carga_Aquecimento. -/
def scatterplots_aquecimento_files (df : DataFrame) : List String :=
  (preditoras df).map (fun c => "scatter_Carga_Aquecimento_" ++ c ++ ".png")

/-- File names written by scatterplots_refriamento (lines 416-464): one
scatterplot per predictor column against Carga_Resfriamento. -/
def scatterplots_resfriamento_files (df : DataFrame) : List String :=
  (preditoras df).map (fun c => "scatter_Carga_Resfriamento_" ++ c ++ ".png")

/-- Write-event trace of a successful executar_analise_exploratoria run
(lines 732-779), in stage order: histograms and boxplots, the heatmap, the
scatterplots for both targets, the variance-inflation table written by
calcular_vif (line 352), and the final document. -/
def executar_analise_exploratoria_files (df : DataFrame) : List String :=
  gerar_histogramas_files df ++ ["heatmap_correlacao.png"] ++
    scatterplots_aquecimento_files df ++ scatterplots_resfriamento_files df ++
    ["vif_tabela.csv"] ++ ["relatorio_analise.pdf"]

/-- The output enumeration as the claim words it (heatmap, histograms,
boxplots, scatterplots, final document — and nothing else); stated from the
spec's words, to be compared with the trace the source produces. -/
def claimedOutputSpec (df : DataFrame) (f : String) : Prop :=
  f = "heatmap_correlacao.png" ∨ f = "relatorio_analise.pdf" ∨
  (∃ c ∈ numericColNames df, f = "hist_" ++ c ++ ".png" ∨ f = "box_" ++ c ++ ".png") ∨
  (∃ c ∈ preditoras df, f = "scatter_Carga_Aquecimento_" ++ c ++ ".png" ∨
    f = "scatter_Carga_Resfriamento_" ++ c ++ ".png")

instance (df : DataFrame) (f : String) : Decidable (claimedOutputSpec df f) := by
  unfold claimedOutputSpec
  infer_instance

/-- C5 counterexample: on the concrete sample table the pipeline also writes
vif_tabela.csv into the output directory, a file outside the claim's
"exactly ..." enumeration of heatmap, histograms, boxplots, scatterplots and
final document. -/
theorem C5_executar_counterexample :
    "vif_tabela.csv" ∈ executar_analise_exploratoria_files dfSample ∧
    ¬ claimedOutputSpec dfSample "vif_tabela.csv" := by
  constructor
  · decide
  · decide

lemma length_gerar_histogramas_files (df : DataFrame) :
    (gerar_histogramas_files df).length = 2 * (numericColNames df).length := by
  unfold gerar_histogramas_files
  induction numericColNames df with
  | nil => simp
  | cons c cs ih =>
    simp only [List.flatMap_cons, List.length_append, ih, List.length_cons]
    simp
    try omega

/-- C5 (amended): a successful run writes exactly one heatmap image, one
histogram and one boxplot per numeric column, one scatterplot per predictor
for each of the two targets, one variance-inflation table file, and one final
document — 2n + 2p + 3 write events in total, every one of them either in
the claim's enumeration or the vif_tabela.csv table. -/
theorem C5_executar_amended (df : DataFrame) :
    (executar_analise_exploratoria_files df).length =
      2 * (numericColNames df).length + 2 * (preditoras df).length + 3 ∧
    (gerar_histogramas_files df).length = 2 * (numericColNames df).length ∧
    (scatterplots_aquecimento_files df).length = (preditoras df).length ∧
    (scatterplots_resfriamento_files df).length = (preditoras df).length ∧
    (∀ f ∈ executar_analise_exploratoria_files df,
      claimedOutputSpec df f ∨ f = "vif_tabela.csv") := by
  refine ⟨?_, length_gerar_histogramas_files df, by
      simp [scatterplots_aquecimento_files], by
      simp [scatterplots_resfriamento_files], ?_⟩
  · simp only [executar_analise_exploratoria_files, List.length_append,
      length_gerar_histogramas_files, List.length_map, List.length_cons,
      List.length_nil, scatterplots_aquecimento_files, scatterplots_resfriamento_files]
    omega
  · intro f hf
    simp only [executar_analise_exploratoria_files, List.mem_append,
      gerar_histogramas_files, scatterplots_aquecimento_files,
      scatterplots_resfriamento_files, List.mem_flatMap, List.mem_map,
      List.mem_cons, List.mem_singleton, List.not_mem_nil, or_false] at hf
    rcases hf with ((((⟨c, hc, hfc⟩ | hheat) | ⟨c, hc, rfl⟩) | ⟨c, hc, rfl⟩) | hvif) | hpdf
    · rcases hfc with rfl | rfl
      · exact Or.inl (Or.inr (Or.inr (Or.inl ⟨c, hc, Or.inl rfl⟩)))
      · exact Or.inl (Or.inr (Or.inr (Or.inl ⟨c, hc, Or.inr rfl⟩)))
    · exact Or.inl (Or.inl hheat)
    · exact Or.inl (Or.inr (Or.inr (Or.inr ⟨c, hc, Or.inl rfl⟩)))
    · exact Or.inl (Or.inr (Or.inr (Or.inr ⟨c, hc, Or.inr rfl⟩)))
    · exact Or.inr hvif
    · exact Or.inl (Or.inr (Or.inl hpdf))

/-- Witness for C5 (amended) at the concrete sample table. -/
theorem C5_executar_amended_witness :
    (executar_analise_exploratoria_files dfSample).length =
      2 * (numericColNames dfSample).length + 2 * (preditoras dfSample).length + 3 ∧
    (claimedOutputSpec dfSample "hist_Compacidade_Relativa.png" ∨
      "hist_Compacidade_Relativa.png" = "vif_tabela.csv") :=
  ⟨(C5_executar_amended dfSample).1,
   (C5_executar_amended dfSample).2.2.2.2 "hist_Compacidade_Relativa.png" (by decide)⟩

/-- Sections of the document assembled by gerar_relatorio_pdf, in source
order: the six unconditional text sections, then one optional section per
artifact (`figura f` embeds image file f). -/
inductive Secao where
  | capa
  | infoTab
  | sumario
  | describeTab
  | nulosTab
  | correlacoesTab
  | heatmapFig
  | figura (fname : String)
  | vifTab
deriving DecidableEq, Repr

/-- The six sections gerar_relatorio_pdf always emits (cover page, df.info
table, executive summary, describe table, null counts, top correlations). -/
def secoesBase : List Secao :=
  [Secao.capa, Secao.infoTab, Secao.sumario, Secao.describeTab,
   Secao.nulosTab, Secao.correlacoesTab]

/-- Character-list prefix test. -/
def prefixo : List Char → List Char → Bool
  | [], _ => true
  | _ :: _, [] => false
  | a :: as, b :: bs => a == b && prefixo as bs

/-- Python's `f.startswith(pre)` on the character sequences. -/
def comecaCom (f pre : String) : Bool := prefixo pre.data f.data

/-- Section trace of gerar_relatorio_pdf (lines 468-729) as a function of the
set of artifact files present in the images directory at assembly time: the
six unconditional sections; the heatmap page only if heatmap_correlacao.png
exists (line 604); one figure page per hist_/box_/scatter_-prefixed file
found by os.listdir (each double-checked with os.path.exists against the same
directory); and the VIF table only if vif_tabela.csv exists (line 709).
Text content of the pages (df, describe, nulos, correlations, info) does not
affect which sections appear, so only the file list is a parameter. -/
def gerar_relatorio_pdf (fs : List String) : List Secao :=
  secoesBase ++
    (if "heatmap_correlacao.png" ∈ fs then [Secao.heatmapFig] else []) ++
    ((fs.filter (fun f => comecaCom f "hist_")).map Secao.figura) ++
    ((fs.filter (fun f => comecaCom f "box_")).map Secao.figura) ++
    ((fs.filter (fun f => comecaCom f "scatter_Carga_Aquecimento")).map Secao.figura) ++
    ((fs.filter (fun f => comecaCom f "scatter_Carga_Resfriamento")).map Secao.figura) ++
    (if "vif_tabela.csv" ∈ fs then [Secao.vifTab] else [])

/-- C8: gerar_relatorio_pdf always produces the document with all six
unconditional sections; an absent heatmap or VIF table yields no
corresponding section and no placeholder; and a figure page appears for a
file exactly when that file is present with one of the four chart prefixes —
so absent chart images are skipped silently as well. -/
theorem C8_gerar_relatorio_pdf (fs : List String) :
    (∀ s ∈ secoesBase, s ∈ gerar_relatorio_pdf fs) ∧
    ("heatmap_correlacao.png" ∉ fs → Secao.heatmapFig ∉ gerar_relatorio_pdf fs) ∧
    ("vif_tabela.csv" ∉ fs → Secao.vifTab ∉ gerar_relatorio_pdf fs) ∧
    (∀ f, Secao.figura f ∈ gerar_relatorio_pdf fs ↔
      f ∈ fs ∧ (comecaCom f "hist_" ∨ comecaCom f "box_" ∨
        comecaCom f "scatter_Carga_Aquecimento" ∨
        comecaCom f "scatter_Carga_Resfriamento")) := by
  refine ⟨?_, ?_, ?_, ?_⟩
  · intro s hs
    simp only [gerar_relatorio_pdf, List.mem_append]
    exact Or.inl (Or.inl (Or.inl (Or.inl (Or.inl (Or.inl hs)))))
  · intro h
    simp [gerar_relatorio_pdf, h, secoesBase, List.mem_filter]
  · intro h
    simp [gerar_relatorio_pdf, h, secoesBase, List.mem_filter]
  · intro f
    constructor
    · intro h
      simp only [gerar_relatorio_pdf, List.mem_append, List.mem_map,
        List.mem_filter] at h
      rcases h with ((((( hbase | hheat) | ⟨a, ⟨ha, hp⟩, hfa⟩) | ⟨a, ⟨ha, hp⟩, hfa⟩) |
        ⟨a, ⟨ha, hp⟩, hfa⟩) | ⟨a, ⟨ha, hp⟩, hfa⟩) | hvif
      · simp [secoesBase] at hbase
      · by_cases hc : "heatmap_correlacao.png" ∈ fs <;> simp [hc] at hheat
      · cases hfa; exact ⟨ha, Or.inl hp⟩
      · cases hfa; exact ⟨ha, Or.inr (Or.inl hp)⟩
      · cases hfa; exact ⟨ha, Or.inr (Or.inr (Or.inl hp))⟩
      · cases hfa; exact ⟨ha, Or.inr (Or.inr (Or.inr hp))⟩
      · by_cases hc : "vif_tabela.csv" ∈ fs <;> simp [hc] at hvif
    · rintro ⟨hmem, hp⟩
      simp only [gerar_relatorio_pdf, List.mem_append, List.mem_map, List.mem_filter]
      rcases hp with hp | hp | hp | hp
      · exact Or.inl (Or.inl (Or.inl (Or.inl (Or.inr ⟨f, ⟨hmem, hp⟩, rfl⟩))))
      · exact Or.inl (Or.inl (Or.inl (Or.inr ⟨f, ⟨hmem, hp⟩, rfl⟩)))
      · exact Or.inl (Or.inl (Or.inr ⟨f, ⟨hmem, hp⟩, rfl⟩))
      · exact Or.inl (Or.inr ⟨f, ⟨hmem, hp⟩, rfl⟩)

/-- Witness for C8 at a concrete directory holding only one boxplot image:
the six unconditional sections still appear, heatmap and VIF sections are
skipped, the present boxplot gets its page, and an absent histogram gets
none. -/
theorem C8_gerar_relatorio_pdf_witness :
    Secao.capa ∈ gerar_relatorio_pdf ["box_Altura_Total.png"] ∧
    Secao.heatmapFig ∉ gerar_relatorio_pdf ["box_Altura_Total.png"] ∧
    Secao.vifTab ∉ gerar_relatorio_pdf ["box_Altura_Total.png"] ∧
    Secao.figura "box_Altura_Total.png" ∈ gerar_relatorio_pdf ["box_Altura_Total.png"] ∧
    Secao.figura "hist_Altura_Total.png" ∉ gerar_relatorio_pdf ["box_Altura_Total.png"] :=
  ⟨(C8_gerar_relatorio_pdf ["box_Altura_Total.png"]).1 Secao.capa (by decide),
   (C8_gerar_relatorio_pdf ["box_Altura_Total.png"]).2.1 (by decide),
   (C8_gerar_relatorio_pdf ["box_Altura_Total.png"]).2.2.1 (by decide),
   ((C8_gerar_relatorio_pdf ["box_Altura_Total.png"]).2.2.2 "box_Altura_Total.png").mpr
     (by decide),
   fun h => by
     have := ((C8_gerar_relatorio_pdf ["box_Altura_Total.png"]).2.2.2
       "hist_Altura_Total.png").mp h
     revert this
     decide⟩

end EDA
